import Mathlib

/-!
Formal model of the comparavision benchmark workers.

The repository contains two near-duplicate RunPod workers that benchmark
pairs of vision models over an image batch:

* `src/backend/runpod/enhanced_vision_benchmark_worker.py` (namespace `Enhanced`)
* `src/runpod/vision_benchmark_worker.py` (namespace `Basic`)

Python floats are modelled as rationals (`ℚ`); the metric formulas are pure
real arithmetic.  The externally supplied parts of a benchmark run (image
decoding, model outputs, wall-clock timing, system counters) are modelled as
explicit parameters in an `Env` record, and the observable side effects of a
run (monitor start/stop, model construction, per-image inference, final
aggregation) are recorded in an explicit event trace.
-/

namespace ComparaVision

/-- A normalized detection record: class label, confidence and bounding box. -/
structure Detection where
  classLabel : String
  confidence : ℚ
  bbox : List ℚ
deriving Repr, DecidableEq

/-- Result of the detection-scoring functions: the dict returned by
`calculate_detection_metrics` in the enhanced worker. -/
structure DetectionScores where
  accuracy : ℚ
  precision : ℚ
  recall_score : ℚ
  f1_score : ℚ
  cars_detected : ℕ
deriving Repr, DecidableEq

namespace Enhanced

/-- Embeds `ComprehensiveCarDetectionBenchmark.calculate_detection_metrics`
(enhanced worker, lines 324-352). -/
def calculate_detection_metrics (detections : List Detection) (ground_truth : ℕ) :
    DetectionScores :=
  let detected_count := detections.length
  let accuracy : ℚ :=
    if ground_truth = 0 then (if detected_count = 0 then 1 else 0)
    else max 0 (1 - |(detected_count : ℚ) - (ground_truth : ℚ)| / (ground_truth : ℚ))
  let precision : ℚ :=
    if ground_truth = 0 then (if detected_count = 0 then 1 else 0)
    else if 0 < detected_count then min 1 ((ground_truth : ℚ) / (detected_count : ℚ)) else 0
  let recall_score : ℚ :=
    if ground_truth = 0 then 1
    else min 1 ((detected_count : ℚ) / (ground_truth : ℚ))
  let f1 : ℚ :=
    if 0 < precision + recall_score then 2 * (precision * recall_score) / (precision + recall_score) else 0
  { accuracy := accuracy, precision := precision, recall_score := recall_score,
    f1_score := f1, cars_detected := detected_count }

/-- Embeds `ComprehensiveCarDetectionBenchmark.calculate_green_score`
(enhanced worker, lines 354-370).  The code clamps each non-positive input up
to a small floor, then sums four weighted component scores and clamps the sum
into `[0, 100]`. -/
def calculate_green_score (carbon_emissions accuracy speed_ms memory_mb : ℚ) : ℚ :=
  let carbon : ℚ := if carbon_emissions ≤ 0 then 0.001 else carbon_emissions
  let speed : ℚ := if speed_ms ≤ 0 then 1 else speed_ms
  let memory : ℚ := if memory_mb ≤ 0 then 100 else memory_mb
  let accuracy_score := accuracy * 40
  let speed_score := min 30 (30 * (1000 / speed))
  let memory_score := min 20 (20 * (1000 / memory))
  let carbon_score := min 10 (10 * ((0.1 : ℚ) / carbon))
  let green_score := accuracy_score + speed_score + memory_score + carbon_score
  min 100 (max 0 green_score)

/-- Embeds `ComprehensiveCarDetectionBenchmark.calculate_energy_consumption`
(enhanced worker, lines 372-382). -/
def calculate_energy_consumption (duration_seconds cpu_percent : ℚ)
    (cuda_available : Bool) : ℚ :=
  let base_power : ℚ := 50
  let cpu_power : ℚ := (cpu_percent / 100) * 100
  let gpu_power : ℚ := if cuda_available then 150 else 0
  let total_power := base_power + cpu_power + gpu_power
  total_power * (duration_seconds / 3600)

end Enhanced

namespace Basic

/-- Result of `CarDetectionBenchmark.calculate_accuracy_metrics` (basic worker);
this dict has no `cars_detected` key. -/
structure AccuracyScores where
  accuracy : ℚ
  precision : ℚ
  recall_score : ℚ
  f1_score : ℚ
deriving Repr, DecidableEq

/-- Embeds `CarDetectionBenchmark.calculate_accuracy_metrics`
(basic worker, lines 246-270). -/
def calculate_accuracy_metrics (predictions : List Detection) (ground_truth : ℕ) :
    AccuracyScores :=
  let predicted_count := predictions.length
  let accuracy : ℚ :=
    max 0 (1 - |(predicted_count : ℚ) - (ground_truth : ℚ)| / max (ground_truth : ℚ) 1)
  let precision : ℚ :=
    if 0 < ground_truth then
      (if 0 < predicted_count then min 1 ((predicted_count : ℚ) / (ground_truth : ℚ)) else 0)
    else (if predicted_count = 0 then 1 else 0)
  let recall_score : ℚ :=
    if 0 < ground_truth then min 1 ((predicted_count : ℚ) / (ground_truth : ℚ))
    else (if predicted_count = 0 then 1 else 0)
  let f1 : ℚ :=
    if 0 < precision + recall_score then 2 * (precision * recall_score) / (precision + recall_score) else 0
  { accuracy := accuracy, precision := precision, recall_score := recall_score, f1_score := f1 }

end Basic

namespace SpecModel

/-- Written from the spec's words (section 4.5): the count-based
`score_detections(detections, ground_truth_count)` formula set, as a function
of the detected count and of the ground-truth count. -/
def score_detections (detected truth : ℕ) : DetectionScores :=
  let accuracy : ℚ :=
    if truth = 0 then (if detected = 0 then 1 else 0)
    else max 0 (1 - |(detected : ℚ) - (truth : ℚ)| / (truth : ℚ))
  let precision : ℚ :=
    if truth = 0 then (if detected = 0 then 1 else 0)
    else if 0 < detected then min 1 ((truth : ℚ) / (detected : ℚ)) else 0
  let recall_score : ℚ :=
    if truth = 0 then 1
    else min 1 ((detected : ℚ) / (truth : ℚ))
  let f1 : ℚ :=
    if 0 < precision + recall_score then 2 * (precision * recall_score) / (precision + recall_score) else 0
  { accuracy := accuracy, precision := precision, recall_score := recall_score,
    f1_score := f1, cars_detected := detected }

/-- Written from the spec's words (section 4.5 and claim C4): each input below
its small positive floor is clamped upward (`carbon ≥ 0.001`, `speed ≥ 1.0`,
`memory ≥ 100`), then the score is
`accuracy*40 + min(30, 30*1000/speed) + min(20, 20*1000/memory) +
min(10, 10*0.1/carbon)` clamped into `[0, 100]`. -/
def green_score (carbon_emissions accuracy speed_ms memory_mb : ℚ) : ℚ :=
  let carbon : ℚ := max carbon_emissions 0.001
  let speed : ℚ := max speed_ms 1
  let memory : ℚ := max memory_mb 100
  min 100 (max 0 (accuracy * 40 + min 30 (30 * 1000 / speed)
    + min 20 (20 * 1000 / memory) + min 10 (10 * (0.1 : ℚ) / carbon)))

/-- Written from claim C10's words: the persisted winner as a function of the
two accuracies alone. -/
def accuracy_only_winner (accuracy_a accuracy_b : ℚ) : String :=
  if accuracy_a > accuracy_b then "model_a"
  else if accuracy_b > accuracy_a then "model_b"
  else "tie"

/-- Written from claim C10's words: the persisted win margin as a function of
the two accuracies alone. -/
def accuracy_only_margin (accuracy_a accuracy_b : ℚ) : ℚ :=
  |accuracy_a - accuracy_b| * 100

end SpecModel

namespace Enhanced

/-- The `ComprehensiveBenchmarkMetrics` dataclass of the enhanced worker
(lines 80-107), with Python floats modelled as rationals. -/
structure ComprehensiveBenchmarkMetrics where
  accuracy : ℚ := 0
  speed_ms : ℚ := 0
  memory_mb : ℚ := 0
  carbon_emissions : ℚ := 0
  green_score : ℚ := 0
  f1_score : ℚ := 0
  latency_ms : ℚ := 0
  throughput_fps : ℚ := 0
  peak_memory_mb : ℚ := 0
  cpu_usage_percent : ℚ := 0
  gpu_memory_mb : ℚ := 0
  energy_consumption : ℚ := 0
  model_size_mb : ℚ := 0
  precision : ℚ := 0
  recall_score : ℚ := 0
  cars_detected : ℕ := 0
  inference_count : ℕ := 0
  test_duration_seconds : ℚ := 0
deriving Repr, DecidableEq

/-- Keys of `EnhancedVisionModelLoader.SUPPORTED_MODELS` (lines 171-180). -/
def SUPPORTED_MODELS : List String :=
  ["Trained_yolov5", "Trained_yolov8", "efficientnet_b0", "detectron2",
   "llama2_70b", "opus_mt", "roberta_base", "wav2vec2"]

/-- Outcome of one `load_model` call: the returned handle or the raised error,
the loader cache after the call, and how many times the expensive framework
construction path ran during the call. -/
structure LoadOutcome (M : Type) where
  result : Except String M
  cache : List (String × M)
  constructions : ℕ

/-- Embeds `EnhancedVisionModelLoader.load_model` (lines 185-226).  The backing
framework (YOLO / timm / detectron2 / mock construction, which may raise) is
abstracted as the `construct` parameter; the `model_cache` dict is an explicit
association list.  A cache hit returns the cached handle unchanged; an unknown
name raises `ValueError("Unsupported model: ...")` before construction; a
successful construction is inserted into the cache; a failed construction is
re-raised without touching the cache. -/
def load_model {M : Type} (construct : String → Except String M)
    (cache : List (String × M)) (model_name : String) : LoadOutcome M :=
  match cache.lookup model_name with
  | some model => ⟨.ok model, cache, 0⟩
  | none =>
    if model_name ∈ SUPPORTED_MODELS then
      match construct model_name with
      | .ok model => ⟨.ok model, (model_name, model) :: cache, 1⟩
      | .error e => ⟨.error e, cache, 0⟩
    else ⟨.error ("Unsupported model: " ++ model_name), cache, 0⟩

/-- One element of the job's `images_data` list; `ground_truth_cars` is
optional because the code reads it with `.get('ground_truth_cars', 1)`. -/
structure ImageData where
  image : String
  ground_truth_cars : Option ℕ
deriving Repr, DecidableEq

/-- Observable side effects of a benchmark run, in order of occurrence. -/
inductive Event where
  | monitorStart
  | monitorStop
  | modelLoad (name : String)
  | inference (image : String)
  | aggregate
deriving Repr, DecidableEq

/-- Whether an event is the processing of one image inside the per-image
loop. -/
def Event.isInference : Event → Bool
  | .inference _ => true
  | _ => false

/-- The externally supplied behaviour of one benchmark run: whether an image
reference decodes, what the model detects on each image, the per-image
wall-clock time, and the system counters sampled by the monitor. -/
structure Env where
  decode_ok : String → Bool
  detect : String → String → List Detection
  inference_time_ms : String → ℚ
  cpu_percent : ℚ
  peak_memory_mb : ℚ
  gpu_memory_mb : ℚ
  cuda_available : Bool
  duration_seconds : ℚ
  model_size_mb : String → ℚ

/-- Running accumulators of the per-image loop in `benchmark_model`
(lines 441-461): `all_detections`, `inference_times`, `total_ground_truth`
and `metrics.inference_count`. -/
structure LoopAccum where
  all_detections : List Detection
  inference_times : List ℚ
  total_ground_truth : ℕ
  inference_count : ℕ
deriving Repr, DecidableEq

/-- The per-image loop of `ComprehensiveCarDetectionBenchmark.benchmark_model`
(lines 445-461).  `preprocess_image` re-raises on a decode failure and the
loop has no per-image handler, so a failing image aborts the loop; a
succeeding image appends its detections and timing and increments
`inference_count`. -/
def process_images (env : Env) (model_name : String) :
    List ImageData → LoopAccum → List Event × Except String LoopAccum
  | [], acc => ([], .ok acc)
  | image_data :: rest, acc =>
    if env.decode_ok image_data.image then
      let detections := env.detect model_name image_data.image
      let t := env.inference_time_ms image_data.image
      let acc' : LoopAccum :=
        { all_detections := acc.all_detections ++ detections
          inference_times := acc.inference_times ++ [t]
          total_ground_truth := acc.total_ground_truth + image_data.ground_truth_cars.getD 1
          inference_count := acc.inference_count + 1 }
      let next := process_images env model_name rest acc'
      (Event.inference image_data.image :: next.1, next.2)
    else
      ([], .error ("Image preprocessing failed: " ++ image_data.image))

/-- Embeds `np.mean(inference_times) if inference_times else 0.0` (line 464). -/
def mean_or_zero (xs : List ℚ) : ℚ :=
  if xs = [] then 0 else xs.sum / xs.length

/-- Embeds `ComprehensiveCarDetectionBenchmark.benchmark_model` (lines 416-528).
The run starts the monitor, loads the model through the shared loader cache,
runs the per-image loop, and on success aggregates all metrics; any exception
(unsupported model, failed construction, failed image decode) propagates after
the `finally` block stops the monitor.  Carbon tracking follows the estimation
fallback path (`carbon_emissions = energy_consumption * 0.4`), matching a
deployment without the codecarbon library. -/
def benchmark_model {M : Type} (env : Env) (construct : String → Except String M)
    (cache : List (String × M)) (model_name : String) (images_data : List ImageData) :
    List Event × List (String × M) × Except String ComprehensiveBenchmarkMetrics :=
  let load := load_model construct cache model_name
  let loadEvents := if load.constructions = 0 then [] else [Event.modelLoad model_name]
  match load.result with
  | .error e =>
    (Enhanced.Event.monitorStart :: loadEvents ++ [Enhanced.Event.monitorStop], load.cache, .error e)
  | .ok _model =>
    match process_images env model_name images_data ⟨[], [], 0, 0⟩ with
    | (evs, .error e) =>
      (Enhanced.Event.monitorStart :: loadEvents ++ evs ++ [Enhanced.Event.monitorStop], load.cache, .error e)
    | (evs, .ok acc) =>
      let speed_ms := mean_or_zero acc.inference_times
      let det := calculate_detection_metrics acc.all_detections acc.total_ground_truth
      let energy := calculate_energy_consumption env.duration_seconds env.cpu_percent
        env.cuda_available
      let carbon := energy * (0.4 : ℚ)
      let metrics : ComprehensiveBenchmarkMetrics :=
        { accuracy := det.accuracy
          speed_ms := speed_ms
          memory_mb := env.peak_memory_mb
          carbon_emissions := carbon
          green_score := calculate_green_score carbon det.accuracy speed_ms env.peak_memory_mb
          f1_score := det.f1_score
          latency_ms := speed_ms
          throughput_fps := if 0 < speed_ms then 1000 / speed_ms else 0
          peak_memory_mb := env.peak_memory_mb
          cpu_usage_percent := env.cpu_percent
          gpu_memory_mb := env.gpu_memory_mb
          energy_consumption := energy
          model_size_mb := env.model_size_mb model_name
          precision := det.precision
          recall_score := det.recall_score
          cars_detected := det.cars_detected
          inference_count := acc.inference_count
          test_duration_seconds := env.duration_seconds }
      (Enhanced.Event.monitorStart :: loadEvents ++ evs ++ [Event.aggregate, Enhanced.Event.monitorStop],
       load.cache, .ok metrics)

/-- The job input consumed by `handler` (lines 694-698). -/
structure JobInput where
  model_a : String
  model_b : String
  images_data : List ImageData
deriving Repr, DecidableEq

/-- The value returned by `handler`: either the failure record
`{"error": ..., "status": "failed"}` or the completed comparison. -/
inductive HandlerResult where
  | failed (error : String)
  | completed (winner : String) (winner_details : String)
      (metrics_a metrics_b : ComprehensiveBenchmarkMetrics)
deriving Repr, DecidableEq

/-- The composite score computed in `handler` (lines 725-730):
`accuracy * 0.4 + (1000 / max(speed_ms, 1)) * 0.3 + green_score / 100 * 0.3`. -/
def composite_score (metrics : ComprehensiveBenchmarkMetrics) : ℚ :=
  metrics.accuracy * (0.4 : ℚ) + (1000 / max metrics.speed_ms 1) * (0.3 : ℚ)
    + metrics.green_score / 100 * (0.3 : ℚ)

/-- Winner selection in `handler` (lines 732-740): the model name with the
larger composite score, or `"Tie"`. -/
def select_winner (model_a model_b : String)
    (metrics_a metrics_b : ComprehensiveBenchmarkMetrics) : String × String :=
  let score_a := composite_score metrics_a
  let score_b := composite_score metrics_b
  if score_a > score_b then (model_a, "Better overall performance")
  else if score_b > score_a then (model_b, "Better overall performance")
  else ("Tie", "Equal performance")

/-- The enhanced worker's `handler` (lines 688-796).  An empty `images_data`
returns the structured error before anything else runs; otherwise the two
benchmark runs execute sequentially over the shared loader cache, and any
exception from a run is caught and turned into the failure record. -/
def handler {M : Type} (env : Env) (construct : String → Except String M)
    (cache : List (String × M)) (job : JobInput) :
    List Event × List (String × M) × HandlerResult :=
  if job.images_data = [] then
    ([], cache, .failed "No images provided for benchmarking")
  else
    match benchmark_model env construct cache job.model_a job.images_data with
    | (evs_a, cache_a, .error e) => (evs_a, cache_a, .failed e)
    | (evs_a, cache_a, .ok metrics_a) =>
      match benchmark_model env construct cache_a job.model_b job.images_data with
      | (evs_b, cache_b, .error e) => (evs_a ++ evs_b, cache_b, .failed e)
      | (evs_b, cache_b, .ok metrics_b) =>
        let w := select_winner job.model_a job.model_b metrics_a metrics_b
        (evs_a ++ evs_b, cache_b, .completed w.1 w.2 metrics_a metrics_b)

/-- Winner determination in `DatabaseIntegration.save_benchmark_results`
(lines 571-576): accuracy comparison only. -/
def db_winner (metrics_a metrics_b : ComprehensiveBenchmarkMetrics) : String :=
  if metrics_a.accuracy > metrics_b.accuracy then "model_a"
  else if metrics_b.accuracy > metrics_a.accuracy then "model_b"
  else "tie"

/-- Win margin persisted by `DatabaseIntegration.save_benchmark_results`
(line 579). -/
def db_win_margin (metrics_a metrics_b : ComprehensiveBenchmarkMetrics) : ℚ :=
  |metrics_a.accuracy - metrics_b.accuracy| * 100

end Enhanced

namespace Scenario

/-- A concrete `"car"` detection used to build detection lists. -/
def carDetection : Detection := ⟨"car", 9/10, [50, 50, 200, 200]⟩

/-- Metrics of model A in the spec's end-to-end scenario 3. -/
def scenario3A : Enhanced.ComprehensiveBenchmarkMetrics :=
  { accuracy := 0.87, speed_ms := 42.3, green_score := 78.4 }

/-- Metrics of model B in the spec's end-to-end scenario 3. -/
def scenario3B : Enhanced.ComprehensiveBenchmarkMetrics :=
  { accuracy := 0.82, speed_ms := 38.7, green_score := 82.1 }

/-- A framework constructor that always succeeds (handles are numbers). -/
def okConstruct : String → Except String ℕ := fun _ => .ok 0

/-- A concrete run environment in which every image reference decodes
except `"bad.jpg"`, the model detects nothing, and every inference takes
5 ms. -/
def envSkip : Enhanced.Env :=
  { decode_ok := fun s => s != "bad.jpg"
    detect := fun _ _ => []
    inference_time_ms := fun _ => 5
    cpu_percent := 10
    peak_memory_mb := 500
    gpu_memory_mb := 0
    cuda_available := false
    duration_seconds := 1
    model_size_mb := fun _ => 20 }

/-- A three-image batch whose second image cannot be decoded. -/
def badBatch : List Enhanced.ImageData :=
  [⟨"a.jpg", some 2⟩, ⟨"bad.jpg", some 1⟩, ⟨"c.jpg", some 3⟩]

/-- A job over `badBatch` comparing the two registered YOLO models. -/
def badJob : Enhanced.JobInput :=
  { model_a := "Trained_yolov5", model_b := "Trained_yolov8", images_data := badBatch }

/-- Metrics with higher accuracy but slower, less green behaviour. -/
def accurateSlow : Enhanced.ComprehensiveBenchmarkMetrics :=
  { accuracy := 0.9, speed_ms := 500, green_score := 10 }

/-- Metrics with lower accuracy but faster, greener behaviour. -/
def fastGreen : Enhanced.ComprehensiveBenchmarkMetrics :=
  { accuracy := 0.8, speed_ms := 1, green_score := 100 }

end Scenario

/-- C1 (counterexample): the claim asserts that the detection-scoring
functions implement the spec's formula set, with `precision = min(1,
truth/detected)` for positive counts; but the basic worker's
`calculate_accuracy_metrics` computes `min(1, detected/truth)`: on 4
detections with ground truth 2 it returns precision 1 where the spec's
formula gives 1/2. -/
theorem claim_C1_counterexample :
    (Basic.calculate_accuracy_metrics (List.replicate 4 Scenario.carDetection) 2).precision
      = 1 ∧
    (SpecModel.score_detections 4 2).precision = 1/2 ∧
    (Basic.calculate_accuracy_metrics (List.replicate 4 Scenario.carDetection) 2).precision
      ≠ (SpecModel.score_detections 4 2).precision := by
  refine ⟨?_, ?_, ?_⟩ <;>
    norm_num [Basic.calculate_accuracy_metrics, SpecModel.score_detections, min_def]

/-- C1 (amended): the enhanced worker's `calculate_detection_metrics`
implements exactly the spec's count-based formula set (zero ground truth:
accuracy and precision are 1 iff there are zero detections and recall is 1;
positive ground truth `t` with detected count `d`:
`accuracy = max(0, 1 - |d - t| / t)`, `precision = min(1, t/d)` if `d > 0`
else 0, `recall = min(1, d/t)`); the basic worker's
`calculate_accuracy_metrics` does not. -/
theorem claim_C1 (detections : List Detection) (ground_truth : ℕ) :
    Enhanced.calculate_detection_metrics detections ground_truth =
      SpecModel.score_detections detections.length ground_truth := by
  rfl

/-- C2 (counterexample): on the spec's scenario-3 metrics the composite
formula of the job handler yields model B, not model A, and model A's score
exceeds 7 (nowhere near the claimed 0.818): the `(1000/speed_ms)*0.3` term is
not normalized into `[0,1]`. -/
theorem claim_C2_counterexample :
    (Enhanced.select_winner "model_a" "model_b" Scenario.scenario3A Scenario.scenario3B).1
      = "model_b" ∧
    7 < Enhanced.composite_score Scenario.scenario3A := by
  constructor
  · norm_num [Enhanced.select_winner, Enhanced.composite_score,
      Scenario.scenario3A, Scenario.scenario3B]
  · norm_num [Enhanced.composite_score, Scenario.scenario3A]

/-- C2 (amended): for model A with accuracy 0.87, speed 42.3 ms, green score
78.4 against model B with accuracy 0.82, speed 38.7 ms, green score 82.1, the
handler's composite formula `accuracy*0.4 + (1000/max(speed_ms,1))*0.3 +
(green_score/100)*0.3` yields model B as the winner, with score A ≈ 7.675 and
score B ≈ 8.326. -/
theorem claim_C2 :
    (Enhanced.select_winner "model_a" "model_b" Scenario.scenario3A Scenario.scenario3B).1
      = "model_b" ∧
    (767/100 : ℚ) < Enhanced.composite_score Scenario.scenario3A ∧
    Enhanced.composite_score Scenario.scenario3A < 768/100 ∧
    (832/100 : ℚ) < Enhanced.composite_score Scenario.scenario3B ∧
    Enhanced.composite_score Scenario.scenario3B < 833/100 := by
  refine ⟨?_, ?_, ?_, ?_, ?_⟩ <;>
    norm_num [Enhanced.select_winner, Enhanced.composite_score,
      Scenario.scenario3A, Scenario.scenario3B]

/-- C10: the winner and win margin persisted to the database row are computed
solely from the two accuracy values (`model_a` if `accuracy_a > accuracy_b`,
`model_b` if `accuracy_b > accuracy_a`, else `tie`, with margin
`|accuracy_a - accuracy_b| * 100`), independently of the composite score used
by the returned job result; on a lower-accuracy but faster and greener model B
the persisted winner is `model_a` while the handler reports model B. -/
theorem claim_C10 :
    (∀ metrics_a metrics_b : Enhanced.ComprehensiveBenchmarkMetrics,
      Enhanced.db_winner metrics_a metrics_b =
        SpecModel.accuracy_only_winner metrics_a.accuracy metrics_b.accuracy ∧
      Enhanced.db_win_margin metrics_a metrics_b =
        SpecModel.accuracy_only_margin metrics_a.accuracy metrics_b.accuracy) ∧
    Enhanced.db_winner Scenario.accurateSlow Scenario.fastGreen = "model_a" ∧
    (Enhanced.select_winner "model_a" "model_b" Scenario.accurateSlow Scenario.fastGreen).1
      = "model_b" := by
  refine ⟨fun metrics_a metrics_b => ⟨rfl, rfl⟩, ?_, ?_⟩
  · norm_num [Enhanced.db_winner, Scenario.accurateSlow, Scenario.fastGreen]
  · norm_num [Enhanced.select_winner, Enhanced.composite_score,
      Scenario.accurateSlow, Scenario.fastGreen]

/-- C7: a job whose `images_data` list is empty fails immediately with the
structured error record: the handler performs no model loading or
benchmarking at all (the event trace is empty and the loader cache is
untouched) and returns the error record, not a comparison. -/
theorem claim_C7 {M : Type} (env : Enhanced.Env) (construct : String → Except String M)
    (cache : List (String × M)) (job : Enhanced.JobInput)
    (h : job.images_data = []) :
    Enhanced.handler env construct cache job =
      ([], cache, .failed "No images provided for benchmarking") := by
  unfold Enhanced.handler
  rw [if_pos h]

/-- C7 witness: the empty-batch job on a concrete environment. -/
theorem claim_C7_witness :
    Enhanced.handler Scenario.envSkip Scenario.okConstruct ([] : List (String × ℕ))
        { model_a := "Trained_yolov5", model_b := "Trained_yolov8", images_data := [] } =
      ([], [], .failed "No images provided for benchmarking") :=
  claim_C7 Scenario.envSkip Scenario.okConstruct []
    { model_a := "Trained_yolov5", model_b := "Trained_yolov8", images_data := [] } rfl

/-- C9: the model loader is idempotent and failure-atomic.  A cache hit
returns the cached handle with the cache unchanged and zero constructions; a
second call after any successful call returns the identical handle without
re-running construction, whatever the framework would do on the retry; and a
failed call leaves the cache exactly as it was. -/
theorem claim_C9 :
    (∀ (M : Type) (construct : String → Except String M) (cache : List (String × M))
        (model_name : String) (model : M),
      cache.lookup model_name = some model →
        Enhanced.load_model construct cache model_name = ⟨.ok model, cache, 0⟩) ∧
    (∀ (M : Type) (construct retry : String → Except String M) (cache : List (String × M))
        (model_name : String) (model : M),
      (Enhanced.load_model construct cache model_name).result = .ok model →
        Enhanced.load_model retry (Enhanced.load_model construct cache model_name).cache
            model_name =
          ⟨.ok model, (Enhanced.load_model construct cache model_name).cache, 0⟩) ∧
    (∀ (M : Type) (construct : String → Except String M) (cache : List (String × M))
        (model_name : String) (e : String),
      (Enhanced.load_model construct cache model_name).result = .error e →
        (Enhanced.load_model construct cache model_name).cache = cache) := by
  refine ⟨?_, ?_, ?_⟩
  · intro M construct cache model_name model h
    simp [Enhanced.load_model, h]
  · intro M construct retry cache model_name model h
    match hcl : cache.lookup model_name with
    | some cached =>
      have hload : Enhanced.load_model construct cache model_name = ⟨.ok cached, cache, 0⟩ := by
        simp [Enhanced.load_model, hcl]
      rw [hload] at h ⊢
      cases h
      simp [Enhanced.load_model, hcl]
    | none =>
      by_cases hmem : model_name ∈ Enhanced.SUPPORTED_MODELS
      · match hc : construct model_name with
        | .ok built =>
          have hload : Enhanced.load_model construct cache model_name =
              ⟨.ok built, (model_name, built) :: cache, 1⟩ := by
            simp [Enhanced.load_model, hcl, hmem, hc]
          rw [hload] at h ⊢
          cases h
          simp [Enhanced.load_model, List.lookup]
        | .error e =>
          have hload : Enhanced.load_model construct cache model_name = ⟨.error e, cache, 0⟩ := by
            simp [Enhanced.load_model, hcl, hmem, hc]
          rw [hload] at h
          cases h
      · have hload : Enhanced.load_model construct cache model_name =
            ⟨.error ("Unsupported model: " ++ model_name), cache, 0⟩ := by
          simp [Enhanced.load_model, hcl, hmem]
        rw [hload] at h
        cases h
  · intro M construct cache model_name e h
    match hcl : cache.lookup model_name with
    | some cached =>
      have hload : Enhanced.load_model construct cache model_name = ⟨.ok cached, cache, 0⟩ := by
        simp [Enhanced.load_model, hcl]
      rw [hload] at h
      cases h
    | none =>
      by_cases hmem : model_name ∈ Enhanced.SUPPORTED_MODELS
      · match hc : construct model_name with
        | .ok built =>
          have hload : Enhanced.load_model construct cache model_name =
              ⟨.ok built, (model_name, built) :: cache, 1⟩ := by
            simp [Enhanced.load_model, hcl, hmem, hc]
          rw [hload] at h
          cases h
        | .error e2 =>
          simp [Enhanced.load_model, hcl, hmem, hc]
      · simp [Enhanced.load_model, hcl, hmem]

/-- C9 witness: concrete cache hit, concrete reload after a successful load
(with a framework that would fail on retry), and a concrete failed load
leaving an empty cache empty. -/
theorem claim_C9_witness :
    Enhanced.load_model Scenario.okConstruct [("Trained_yolov5", 0)] "Trained_yolov5" =
      ⟨.ok 0, [("Trained_yolov5", 0)], 0⟩ ∧
    Enhanced.load_model (fun _ => .error "weights missing")
        (Enhanced.load_model Scenario.okConstruct [] "Trained_yolov5").cache "Trained_yolov5" =
      ⟨.ok 0, (Enhanced.load_model Scenario.okConstruct [] "Trained_yolov5").cache, 0⟩ ∧
    (Enhanced.load_model (fun _ => (.error "weights missing" : Except String ℕ))
        [] "Trained_yolov5").cache = [] :=
  ⟨claim_C9.1 ℕ Scenario.okConstruct [("Trained_yolov5", 0)] "Trained_yolov5" 0 rfl,
   claim_C9.2.1 ℕ Scenario.okConstruct (fun _ => .error "weights missing") []
     "Trained_yolov5" 0 rfl,
   claim_C9.2.2 ℕ (fun _ => .error "weights missing") [] "Trained_yolov5"
     "weights missing" rfl⟩

/-- C8 (counterexample): the claim asserts that an unsupported model name
never reaches the monitoring state, but `benchmark_model` starts the system
monitor before attempting the load: on the unregistered name
`"mystery_net"` the trace contains `monitorStart` even though the run fails
with the unsupported-model error. -/
theorem claim_C8_counterexample :
    Enhanced.Event.monitorStart ∈
      (Enhanced.benchmark_model Scenario.envSkip Scenario.okConstruct
        ([] : List (String × ℕ)) "mystery_net" Scenario.badBatch).1 ∧
    (Enhanced.benchmark_model Scenario.envSkip Scenario.okConstruct
        ([] : List (String × ℕ)) "mystery_net" Scenario.badBatch).2.2 =
      .error "Unsupported model: mystery_net" := by
  have h : Enhanced.benchmark_model Scenario.envSkip Scenario.okConstruct
      ([] : List (String × ℕ)) "mystery_net" Scenario.badBatch =
      ([Enhanced.Event.monitorStart, Enhanced.Event.monitorStop], [],
        .error "Unsupported model: mystery_net") := rfl
  exact ⟨by rw [h]; exact List.mem_cons_self _ _, by rw [h]⟩

/-- C8 (amended): a model name outside the loader registry (and not in the
cache) makes the benchmark run fail with the unsupported-model error and no
metrics aggregation is performed; however, system monitoring is started
before the load attempt and stopped on the failure path, so the trace is
exactly `[monitorStart, monitorStop]` and the loader cache is unchanged. -/
theorem claim_C8 {M : Type} (env : Enhanced.Env) (construct : String → Except String M)
    (cache : List (String × M)) (model_name : String)
    (images_data : List Enhanced.ImageData)
    (hreg : model_name ∉ Enhanced.SUPPORTED_MODELS)
    (hcache : cache.lookup model_name = none) :
    Enhanced.benchmark_model env construct cache model_name images_data =
      ([Enhanced.Event.monitorStart, Enhanced.Event.monitorStop], cache,
        .error ("Unsupported model: " ++ model_name)) := by
  simp [Enhanced.benchmark_model, Enhanced.load_model, hcache, hreg]

/-- C8 witness: the amended statement at the unregistered name
`"mystery_net"` over a concrete environment and batch. -/
theorem claim_C8_witness :
    Enhanced.benchmark_model Scenario.envSkip Scenario.okConstruct
        ([("Trained_yolov5", 0)] : List (String × ℕ)) "mystery_net" Scenario.badBatch =
      ([Enhanced.Event.monitorStart, Enhanced.Event.monitorStop], [("Trained_yolov5", 0)],
        .error ("Unsupported model: " ++ "mystery_net")) :=
  claim_C8 Scenario.envSkip Scenario.okConstruct [("Trained_yolov5", 0)] "mystery_net"
    Scenario.badBatch (by decide) rfl

/-- If every image before `bad` decodes and `bad` does not, the per-image
loop processes exactly the images before `bad`, then aborts with the
preprocessing error; images after `bad` are never reached. -/
theorem process_images_append_fail (env : Enhanced.Env) (model_name : String)
    (bad : Enhanced.ImageData) (post : List Enhanced.ImageData)
    (hbad : env.decode_ok bad.image = false) :
    ∀ (pre : List Enhanced.ImageData) (acc : Enhanced.LoopAccum),
      (∀ i ∈ pre, env.decode_ok i.image = true) →
      Enhanced.process_images env model_name (pre ++ bad :: post) acc =
        (pre.map fun i => Enhanced.Event.inference i.image,
         .error ("Image preprocessing failed: " ++ bad.image)) := by
  intro pre
  induction pre with
  | nil =>
    intro acc _
    simp [Enhanced.process_images, hbad]
  | cons i pre ih =>
    intro acc hpre
    have hi : env.decode_ok i.image = true := hpre i (List.mem_cons_self i pre)
    simp only [List.cons_append, Enhanced.process_images, hi, if_true, List.map_cons,
      List.append_eq]
    rw [ih _ fun j hj => hpre j (List.mem_cons_of_mem i hj)]

/-- C3 (counterexample): the claim asserts that a batch with exactly one
undecodable image is completed with `inference_count = batch_size - 1`; but
on the concrete three-image batch whose second image is undecodable, the
handler returns the failure record rather than a completed comparison. -/
theorem claim_C3_counterexample :
    (Enhanced.handler Scenario.envSkip Scenario.okConstruct ([] : List (String × ℕ))
        Scenario.badJob).2.2 =
      .failed "Image preprocessing failed: bad.jpg" := by
  rfl

/-- C3 (amended): a failed image decode is not skipped: it aborts the
benchmark run with the preprocessing error, only the images before the
failing one are processed (the trace holds exactly `pre.length` inference
events, so the failed sample contributes to no accumulator), and the handler
returns the failure record with `status: failed` instead of a completed
comparison. -/
theorem claim_C3 {M : Type} (env : Enhanced.Env) (construct : String → Except String M)
    (cache : List (String × M)) (model_name model_b : String)
    (pre post : List Enhanced.ImageData) (bad : Enhanced.ImageData) (model : M)
    (hload : (Enhanced.load_model construct cache model_name).result = .ok model)
    (hpre : ∀ i ∈ pre, env.decode_ok i.image = true)
    (hbad : env.decode_ok bad.image = false) :
    (Enhanced.benchmark_model env construct cache model_name (pre ++ bad :: post)).2.2 =
      .error ("Image preprocessing failed: " ++ bad.image) ∧
    (Enhanced.benchmark_model env construct cache model_name
        (pre ++ bad :: post)).1.countP Enhanced.Event.isInference = pre.length ∧
    (Enhanced.handler env construct cache
        ⟨model_name, model_b, pre ++ bad :: post⟩).2.2 =
      .failed ("Image preprocessing failed: " ++ bad.image) := by
  have hproc := process_images_append_fail env model_name bad post hbad pre
    ⟨[], [], 0, 0⟩ hpre
  have hbm : Enhanced.benchmark_model env construct cache model_name (pre ++ bad :: post) =
      (Enhanced.Event.monitorStart ::
        ((if (Enhanced.load_model construct cache model_name).constructions = 0 then []
          else [Enhanced.Event.modelLoad model_name]) ++
         (pre.map fun i => Enhanced.Event.inference i.image) ++
         [Enhanced.Event.monitorStop]),
       (Enhanced.load_model construct cache model_name).cache,
       .error ("Image preprocessing failed: " ++ bad.image)) := by
    simp only [Enhanced.benchmark_model]
    rw [hload, hproc]
    rfl
  refine ⟨by rw [hbm], ?_, ?_⟩
  · rw [hbm]
    simp only [List.countP_cons, List.countP_append, List.countP_map]
    have h1 : (List.countP Enhanced.Event.isInference
        (if (Enhanced.load_model construct cache model_name).constructions = 0 then []
         else [Enhanced.Event.modelLoad model_name])) = 0 := by
      split <;> simp [Enhanced.Event.isInference]
    have h2 : List.countP (Enhanced.Event.isInference ∘ fun i : Enhanced.ImageData =>
        Enhanced.Event.inference i.image) pre = pre.length := by
      rw [List.countP_eq_length]
      intro a _
      rfl
    simp [h1, h2, Enhanced.Event.isInference]
  · unfold Enhanced.handler
    have hne : (⟨model_name, model_b, pre ++ bad :: post⟩ :
        Enhanced.JobInput).images_data ≠ [] := by
      simp
    rw [if_neg hne]
    simp only
    rw [hbm]

/-- C3 witness: the amended statement on a concrete environment, model and
batch (one good image, the undecodable image, one unreached image). -/
theorem claim_C3_witness :
    (Enhanced.benchmark_model Scenario.envSkip Scenario.okConstruct
        ([] : List (String × ℕ)) "Trained_yolov5"
        ([⟨"a.jpg", some 2⟩] ++ ⟨"bad.jpg", some 1⟩ :: [⟨"c.jpg", some 3⟩])).2.2 =
      .error "Image preprocessing failed: bad.jpg" ∧
    (Enhanced.benchmark_model Scenario.envSkip Scenario.okConstruct
        ([] : List (String × ℕ)) "Trained_yolov5"
        ([⟨"a.jpg", some 2⟩] ++ ⟨"bad.jpg", some 1⟩ :: [⟨"c.jpg", some 3⟩])).1.countP
      Enhanced.Event.isInference = 1 ∧
    (Enhanced.handler Scenario.envSkip Scenario.okConstruct ([] : List (String × ℕ))
        ⟨"Trained_yolov5", "Trained_yolov8",
          [⟨"a.jpg", some 2⟩] ++ ⟨"bad.jpg", some 1⟩ :: [⟨"c.jpg", some 3⟩]⟩).2.2 =
      .failed "Image preprocessing failed: bad.jpg" :=
  claim_C3 Scenario.envSkip Scenario.okConstruct [] "Trained_yolov5" "Trained_yolov8"
    [⟨"a.jpg", some 2⟩] [⟨"c.jpg", some 3⟩] ⟨"bad.jpg", some 1⟩ 0 rfl (by decide) rfl

/-- Helper: for a capped component `min K (A / _)` with cap `K`, positive
floor `f` and `K * f ≤ A`, replacing a non-positive input by the floor (as
the code does) and clamping any input up to the floor (as the spec says)
yield the same value: on the region between 0 and the floor both hit the
cap `K`. -/
theorem min_div_floor_eq (K A f x : ℚ) (hK : 0 < K) (hf : 0 < f) (hKA : K * f ≤ A) :
    min K (A / (if x ≤ 0 then f else x)) = min K (A / max x f) := by
  have hA : 0 ≤ A := le_trans (mul_pos hK hf).le hKA
  have hKf : K ≤ A / f := (le_div_iff₀ hf).mpr hKA
  rcases le_or_lt x 0 with hx | hx
  · rw [if_pos hx, max_eq_right (hx.trans hf.le)]
  · rw [if_neg (not_le.mpr hx)]
    rcases le_total f x with hfx | hxf
    · rw [max_eq_left hfx]
    · rw [max_eq_right hxf]
      have hAfx : A / f ≤ A / x := div_le_div_of_nonneg_left hA hx hxf
      rw [min_eq_left hKf, min_eq_left (hKf.trans hAfx)]

/-- Helper: the enhanced worker's green score equals the spec's clamped
weighted composite on every input. -/
theorem green_score_floor_eq (carbon_emissions accuracy speed_ms memory_mb : ℚ) :
    Enhanced.calculate_green_score carbon_emissions accuracy speed_ms memory_mb =
      SpecModel.green_score carbon_emissions accuracy speed_ms memory_mb := by
  simp only [Enhanced.calculate_green_score, SpecModel.green_score]
  have hsL : (30:ℚ) * (1000 / (if speed_ms ≤ 0 then 1 else speed_ms)) =
      30000 / (if speed_ms ≤ 0 then (1:ℚ) else speed_ms) := by
    rw [← mul_div_assoc]; norm_num
  have hsR : (30:ℚ) * 1000 / max speed_ms 1 = 30000 / max speed_ms 1 := by norm_num
  have hmL : (20:ℚ) * (1000 / (if memory_mb ≤ 0 then 100 else memory_mb)) =
      20000 / (if memory_mb ≤ 0 then (100:ℚ) else memory_mb) := by
    rw [← mul_div_assoc]; norm_num
  have hmR : (20:ℚ) * 1000 / max memory_mb 100 = 20000 / max memory_mb 100 := by norm_num
  have hcL : (10:ℚ) * ((0.1:ℚ) / (if carbon_emissions ≤ 0 then 0.001 else carbon_emissions)) =
      1 / (if carbon_emissions ≤ 0 then (0.001:ℚ) else carbon_emissions) := by
    rw [← mul_div_assoc]; norm_num
  have hcR : (10:ℚ) * (0.1:ℚ) / max carbon_emissions 0.001 =
      1 / max carbon_emissions 0.001 := by norm_num
  rw [hsL, hmL, hcL, hsR, hmR, hcR,
    min_div_floor_eq 30 30000 1 speed_ms (by norm_num) (by norm_num) (by norm_num),
    min_div_floor_eq 20 20000 100 memory_mb (by norm_num) (by norm_num) (by norm_num),
    min_div_floor_eq 10 1 0.001 carbon_emissions (by norm_num) (by norm_num) (by norm_num)]

/-- C4: on every input, the enhanced worker's green score equals the spec's
formula: after each input below its positive floor is clamped upward (carbon
to at least 0.001, speed to at least 1, memory to at least 100), the result
is `accuracy*40 + min(30, 30*1000/speed_ms) + min(20, 20*1000/memory_mb) +
min(10, 10*0.1/carbon)` clamped into `[0, 100]`. -/
theorem claim_C4 (carbon_emissions accuracy speed_ms memory_mb : ℚ) :
    Enhanced.calculate_green_score carbon_emissions accuracy speed_ms memory_mb =
      SpecModel.green_score carbon_emissions accuracy speed_ms memory_mb :=
  green_score_floor_eq carbon_emissions accuracy speed_ms memory_mb

/-- Helper: the outer clamp into `[0, 100]` is monotone. -/
theorem clamp_mono {a b : ℚ} (h : a ≤ b) : min 100 (max 0 a) ≤ min 100 (max 0 b) :=
  min_le_min le_rfl (max_le_max le_rfl h)

/-- Helper: each capped reciprocal component is antitone in its input. -/
theorem min_div_max_anti (K A f : ℚ) (hA : 0 ≤ A) (hf : 0 < f) {x y : ℚ} (h : x ≤ y) :
    min K (A / max y f) ≤ min K (A / max x f) :=
  min_le_min le_rfl
    (div_le_div_of_nonneg_left hA (lt_of_lt_of_le hf (le_max_right x f))
      (max_le_max h le_rfl))

/-- C5: the green score is monotonically non-decreasing in accuracy with the
other inputs fixed, non-increasing in carbon emissions, speed and memory
individually, and always lies in `[0, 100]`. -/
theorem claim_C5 :
    (∀ carbon speed memory a1 a2 : ℚ, a1 ≤ a2 →
      Enhanced.calculate_green_score carbon a1 speed memory ≤
        Enhanced.calculate_green_score carbon a2 speed memory) ∧
    (∀ accuracy speed memory c1 c2 : ℚ, c1 ≤ c2 →
      Enhanced.calculate_green_score c2 accuracy speed memory ≤
        Enhanced.calculate_green_score c1 accuracy speed memory) ∧
    (∀ carbon accuracy memory s1 s2 : ℚ, s1 ≤ s2 →
      Enhanced.calculate_green_score carbon accuracy s2 memory ≤
        Enhanced.calculate_green_score carbon accuracy s1 memory) ∧
    (∀ carbon accuracy speed m1 m2 : ℚ, m1 ≤ m2 →
      Enhanced.calculate_green_score carbon accuracy speed m2 ≤
        Enhanced.calculate_green_score carbon accuracy speed m1) ∧
    (∀ carbon accuracy speed memory : ℚ,
      0 ≤ Enhanced.calculate_green_score carbon accuracy speed memory ∧
      Enhanced.calculate_green_score carbon accuracy speed memory ≤ 100) := by
  refine ⟨?_, ?_, ?_, ?_, ?_⟩
  · intro carbon speed memory a1 a2 h
    rw [green_score_floor_eq, green_score_floor_eq]
    simp only [SpecModel.green_score]
    exact clamp_mono (add_le_add (add_le_add (add_le_add
      (mul_le_mul_of_nonneg_right h (by norm_num)) le_rfl) le_rfl) le_rfl)
  · intro accuracy speed memory c1 c2 h
    rw [green_score_floor_eq, green_score_floor_eq]
    simp only [SpecModel.green_score]
    exact clamp_mono (add_le_add le_rfl
      (min_div_max_anti 10 (10 * (0.1:ℚ)) 0.001 (by norm_num) (by norm_num) h))
  · intro carbon accuracy memory s1 s2 h
    rw [green_score_floor_eq, green_score_floor_eq]
    simp only [SpecModel.green_score]
    exact clamp_mono (add_le_add (add_le_add (add_le_add le_rfl
      (min_div_max_anti 30 (30 * 1000) 1 (by norm_num) (by norm_num) h)) le_rfl) le_rfl)
  · intro carbon accuracy speed m1 m2 h
    rw [green_score_floor_eq, green_score_floor_eq]
    simp only [SpecModel.green_score]
    exact clamp_mono (add_le_add (add_le_add le_rfl
      (min_div_max_anti 20 (20 * 1000) 100 (by norm_num) (by norm_num) h)) le_rfl)
  · intro carbon accuracy speed memory
    rw [green_score_floor_eq]
    simp only [SpecModel.green_score]
    exact ⟨le_min (by norm_num) (le_max_left 0 _), min_le_left _ _⟩

/-- C5 witness: concrete instances of each monotonicity direction and of the
range bound. -/
theorem claim_C5_witness :
    (Enhanced.calculate_green_score 1 (1/2) 50 200 ≤
      Enhanced.calculate_green_score 1 1 50 200) ∧
    (Enhanced.calculate_green_score 2 1 50 200 ≤
      Enhanced.calculate_green_score 1 1 50 200) ∧
    (Enhanced.calculate_green_score 1 1 80 200 ≤
      Enhanced.calculate_green_score 1 1 50 200) ∧
    (Enhanced.calculate_green_score 1 1 50 400 ≤
      Enhanced.calculate_green_score 1 1 50 200) ∧
    (0 ≤ Enhanced.calculate_green_score 1 1 50 200 ∧
      Enhanced.calculate_green_score 1 1 50 200 ≤ 100) :=
  ⟨claim_C5.1 1 50 200 (1/2) 1 (by norm_num),
   claim_C5.2.1 1 50 200 1 2 (by norm_num),
   claim_C5.2.2.1 1 1 200 50 80 (by norm_num),
   claim_C5.2.2.2.1 1 1 50 200 400 (by norm_num),
   claim_C5.2.2.2.2 1 1 50 200⟩

/-- C6: for every detection list and every positive ground-truth count, the
four scores returned by the enhanced worker's detection-scoring function lie
in `[0, 1]`, and the F1 score is zero exactly when precision + recall is
zero. -/
theorem claim_C6 (detections : List Detection) (ground_truth : ℕ)
    (ht : 0 < ground_truth) :
    (0 ≤ (Enhanced.calculate_detection_metrics detections ground_truth).accuracy ∧
      (Enhanced.calculate_detection_metrics detections ground_truth).accuracy ≤ 1) ∧
    (0 ≤ (Enhanced.calculate_detection_metrics detections ground_truth).precision ∧
      (Enhanced.calculate_detection_metrics detections ground_truth).precision ≤ 1) ∧
    (0 ≤ (Enhanced.calculate_detection_metrics detections ground_truth).recall_score ∧
      (Enhanced.calculate_detection_metrics detections ground_truth).recall_score ≤ 1) ∧
    (0 ≤ (Enhanced.calculate_detection_metrics detections ground_truth).f1_score ∧
      (Enhanced.calculate_detection_metrics detections ground_truth).f1_score ≤ 1) ∧
    ((Enhanced.calculate_detection_metrics detections ground_truth).f1_score = 0 ↔
      (Enhanced.calculate_detection_metrics detections ground_truth).precision +
        (Enhanced.calculate_detection_metrics detections ground_truth).recall_score = 0) := by
  have htne : ground_truth ≠ 0 := ht.ne'
  have htq : (0:ℚ) < (ground_truth : ℚ) := by exact_mod_cast ht
  simp only [Enhanced.calculate_detection_metrics, if_neg htne]
  have hacc : 0 ≤ max (0:ℚ)
      (1 - |(detections.length : ℚ) - (ground_truth : ℚ)| / (ground_truth : ℚ)) ∧
      max (0:ℚ)
        (1 - |(detections.length : ℚ) - (ground_truth : ℚ)| / (ground_truth : ℚ)) ≤ 1 :=
    ⟨le_max_left _ _,
     max_le (by norm_num) (sub_le_self _ (div_nonneg (abs_nonneg _) htq.le))⟩
  by_cases hd : 0 < detections.length
  · have hdq : (0:ℚ) < (detections.length : ℚ) := by exact_mod_cast hd
    simp only [if_pos hd]
    set p := min (1:ℚ) ((ground_truth : ℚ) / (detections.length : ℚ)) with hpdef
    set r := min (1:ℚ) ((detections.length : ℚ) / (ground_truth : ℚ)) with hrdef
    have hp : 0 < p := lt_min one_pos (div_pos htq hdq)
    have hr : 0 < r := lt_min one_pos (div_pos hdq htq)
    have hpr : 0 < p + r := add_pos hp hr
    rw [if_pos hpr]
    refine ⟨hacc, ⟨hp.le, min_le_left _ _⟩, ⟨hr.le, min_le_left _ _⟩, ⟨?_, ?_⟩, ?_⟩
    · exact div_nonneg (by positivity) hpr.le
    · rw [div_le_one hpr]
      have h1 : p * r ≤ p := mul_le_of_le_one_right hp.le (min_le_left _ _)
      have h2 : p * r ≤ r := mul_le_of_le_one_left hr.le (min_le_left _ _)
      linarith
    · have hf1 : 0 < 2 * (p * r) / (p + r) := div_pos (by positivity) hpr
      constructor
      · intro h0
        exact absurd h0 hf1.ne'
      · intro h0
        exact absurd h0 hpr.ne'
  · have hd0 : detections.length = 0 := Nat.eq_zero_of_not_pos hd
    simp only [if_neg hd, hd0, Nat.cast_zero, zero_div]
    have hr0 : min (1:ℚ) 0 = 0 := min_eq_right zero_le_one
    rw [hr0]
    norm_num [hacc]
    positivity

/-- C6 witness: the bounds and the F1 characterization on two detections
against a ground truth of two. -/
theorem claim_C6_witness :
    0 < 2 ∧
    ((0 ≤ (Enhanced.calculate_detection_metrics
        (List.replicate 2 Scenario.carDetection) 2).accuracy ∧
      (Enhanced.calculate_detection_metrics
        (List.replicate 2 Scenario.carDetection) 2).accuracy ≤ 1) ∧
    (0 ≤ (Enhanced.calculate_detection_metrics
        (List.replicate 2 Scenario.carDetection) 2).precision ∧
      (Enhanced.calculate_detection_metrics
        (List.replicate 2 Scenario.carDetection) 2).precision ≤ 1) ∧
    (0 ≤ (Enhanced.calculate_detection_metrics
        (List.replicate 2 Scenario.carDetection) 2).recall_score ∧
      (Enhanced.calculate_detection_metrics
        (List.replicate 2 Scenario.carDetection) 2).recall_score ≤ 1) ∧
    (0 ≤ (Enhanced.calculate_detection_metrics
        (List.replicate 2 Scenario.carDetection) 2).f1_score ∧
      (Enhanced.calculate_detection_metrics
        (List.replicate 2 Scenario.carDetection) 2).f1_score ≤ 1) ∧
    ((Enhanced.calculate_detection_metrics
        (List.replicate 2 Scenario.carDetection) 2).f1_score = 0 ↔
      (Enhanced.calculate_detection_metrics
        (List.replicate 2 Scenario.carDetection) 2).precision +
        (Enhanced.calculate_detection_metrics
          (List.replicate 2 Scenario.carDetection) 2).recall_score = 0)) :=
  ⟨by norm_num, claim_C6 (List.replicate 2 Scenario.carDetection) 2 (by norm_num)⟩

end ComparaVision
